import Mathlib

/-!
Shallow embedding of the digestus `updates` app (src/updates/tasks.py,
src/updates/models.py, src/updates/helpers.py).

Modelling conventions:
* Instants are minutes since 2015-01-01 00:00 UTC (an `Int`).  2015-01-01 is a
  Thursday, whose Python `weekday()` is 3.
* A timezone-aware `datetime` is an instant plus a fixed UTC offset in minutes
  (`pytz.timezone('Asia/Manila')` is a fixed UTC+8 zone, `pytz.UTC` is offset 0).
  `astimezone` keeps the instant and changes the offset; `weekday()`, `replace`
  and the `year/month/day` components are functions of the local minutes
  `instant + tzOffset`.  Time is modelled at minute granularity, matching the
  `hour`/`minute` fields the code manipulates.
* Calendar dates (`DateField`, the `year/month/day` triple of a datetime) are
  modelled as the day index `localMinutes.fdiv 1440`: two datetimes have equal
  year, month and day exactly when they have equal day indices.
* Python floor division `//` is `Int.fdiv`; Python `%` with a positive divisor
  is `Int.emod`.
* Django querysets over in-memory lists: `.filter` is `List.filter`,
  `.first()` is `List.head?`, `.distinct()` after the membership join is a
  no-op here because each team appears once in the input list.
* Python truthiness of a string (`if update.will_do`) is `≠ ""`.
-/

abbrev Minutes := Int

/-- A timezone-aware datetime: absolute instant plus fixed UTC offset (minutes). -/
structure Datetime where
  instant : Minutes
  tzOffset : Minutes
deriving DecidableEq, Repr

/-- `pytz.timezone('Asia/Manila')`: fixed UTC+8. -/
def manilaTZ : Minutes := 480

/-- `pytz.UTC`. -/
def utcTZ : Minutes := 0

def Datetime.localMinutes (d : Datetime) : Int := d.instant + d.tzOffset

/-- The local calendar date, as a day index (see module header). -/
def Datetime.localDay (d : Datetime) : Int := d.localMinutes.fdiv 1440

/-- Python `datetime.weekday()`: Monday = 0 … Sunday = 6.  Epoch day 0
(2015-01-01) is a Thursday, weekday 3. -/
def Datetime.weekday (d : Datetime) : Int := (d.localDay + 3).emod 7

/-- `datetime.astimezone(tz)`: same instant, new offset. -/
def Datetime.astimezone (d : Datetime) (tz : Minutes) : Datetime :=
  ⟨d.instant, tz⟩

/-- A `datetime.time` value as stored in `send_digest_at` / `send_reminders_at`. -/
structure TimeOfDay where
  hour : Int
  minute : Int
deriving DecidableEq, Repr

/-- Valid wall-clock time (what a Django `TimeField` can hold, at minute
granularity). -/
def TimeOfDay.valid (t : TimeOfDay) : Prop :=
  0 ≤ t.hour ∧ t.hour < 24 ∧ 0 ≤ t.minute ∧ t.minute < 60

instance (t : TimeOfDay) : Decidable t.valid := by
  unfold TimeOfDay.valid; infer_instance

/-- `d.replace(hour=t.hour, minute=t.minute)`: same local calendar date and
zone, wall clock set to `t`. -/
def Datetime.replaceHM (d : Datetime) (t : TimeOfDay) : Datetime :=
  ⟨d.localDay * 1440 + t.hour * 60 + t.minute - d.tzOffset, d.tzOffset⟩

/-- `d - datetime.timedelta(hours=1)` generalised: subtract minutes. -/
def Datetime.subMinutes (d : Datetime) (m : Minutes) : Datetime :=
  ⟨d.instant - m, d.tzOffset⟩

/-! ## Data model (src/updates/models.py) -/

/-- `Role`: named tag referenced by memberships. -/
structure Role where
  name : String
deriving DecidableEq, Repr

/-- `Update`: one member's daily update.  `for_date : Int` is the day index of
the `DateField`. -/
structure Update where
  for_date : Int
  done : String
  will_do : String
  blocker : String
deriving DecidableEq, Repr

/-- `Membership` (named `TeamMembership` here after the repo's factory, since
`Membership` is taken by the ambient library): links a user to a team.  The
user's fields that the tasks read are inlined (`user.email`,
`user.get_full_name()`); `role` is a nullable foreign key. -/
structure TeamMembership where
  id : Nat
  is_active : Bool
  role : Option Role
  userEmail : String
  userFullName : String
  updates : List Update
deriving DecidableEq, Repr

/-- `SilentRecipient`: a one-to-one wrapper of a user. -/
structure SilentRecipient where
  userEmail : String
deriving DecidableEq, Repr

/-- `Team`.  `subaccount_valid` models whether
`mandrill.subaccounts.info(id=team.subaccount_id)` succeeds. -/
structure Team where
  id : Nat
  is_active : Bool
  digest_days_sent : List Int
  send_digest_at : TimeOfDay
  send_reminders_at : TimeOfDay
  createdByEmail : String
  memberships : List TeamMembership
  silent_recipients : List SilentRecipient
  subaccount_valid : Bool
deriving DecidableEq, Repr

/-- Python `str.split('\n')` on the character list of a string: splits at
every newline, keeping empty pieces (`"".split('\n') == ['']`). -/
def splitNewlines : List Char → List String
  | [] => [""]
  | c :: rest =>
    if c = '\n' then "" :: splitNewlines rest
    else
      match splitNewlines rest with
      | [] => [String.mk [c]]
      | piece :: pieces => String.mk (c :: piece.data) :: pieces

/-- Python `str.isspace` characters relevant to `str.strip()`. -/
def pyIsSpace (c : Char) : Bool :=
  c = ' ' || c = '\t' || c = '\n' || c = '\r' || c = '\x0b' || c = '\x0c'

/-- Python `str.strip()`: drop leading and trailing whitespace of the whole
string. -/
def pyStrip (s : String) : String :=
  String.mk (((s.data.dropWhile pyIsSpace).reverse.dropWhile pyIsSpace).reverse)

/-- `Update.will_do_as_list`:
`[will_do for will_do in self.will_do.strip().split('\n') if will_do.strip()]`
(a line is kept when it is truthy after `strip()`, i.e. not whitespace-only,
and is kept *unstripped*). -/
def Update.will_do_as_list (u : Update) : List String :=
  (splitNewlines (pyStrip u.will_do).data).filter (fun w => pyStrip w ≠ "")

/-- `Update.done_as_list`. -/
def Update.done_as_list (u : Update) : List String :=
  (splitNewlines (pyStrip u.done).data).filter (fun d => pyStrip d ≠ "")

/-- `Update.blocker_as_list`. -/
def Update.blocker_as_list (u : Update) : List String :=
  (splitNewlines (pyStrip u.blocker).data).filter (fun b => pyStrip b ≠ "")

/-- `Team.get_recipients`: for project managers the owner's email only,
otherwise `list(set(active member emails + silent recipient emails + [owner]))`.
The Python `set` is modelled by `List.dedup`. -/
def Team.get_recipients (team : Team) (for_project_managers : Bool) : List String :=
  if for_project_managers then
    [team.createdByEmail]
  else
    ((team.memberships.filter (·.is_active)).map (·.userEmail)
      ++ team.silent_recipients.map (·.userEmail)
      ++ [team.createdByEmail]).dedup

/-- A runtime exception of the Python code. -/
inductive PyErr where
  /-- `AttributeError` — e.g. `None.name`. -/
  | attributeError
  /-- `NameError` — an undefined name was evaluated. -/
  | nameError
deriving DecidableEq, Repr

/-- One entry of `Team.get_updates`' result list. -/
structure RosterEntry where
  member : String
  update : Option Update
  role : String
deriving DecidableEq, Repr

/-- The roster-building loop of `Team.get_updates`: one entry per membership,
in order; each entry holds the member's display name
(`get_full_name() or email`), the first update whose `for_date`
year/month/day match `for_date`'s, and `membership.role.name`.  Reading
`.name` on a null `role` raises `AttributeError`, which discards the partial
roster, so the result is an `Except`. -/
def rosterEntries (for_date : Datetime) :
    List TeamMembership → Except PyErr (List RosterEntry)
  | [] => .ok []
  | m :: rest =>
    match m.role with
    | none => .error .attributeError
    | some r =>
      match rosterEntries for_date rest with
      | .error e => .error e
      | .ok tail =>
          .ok ({ member := if m.userFullName ≠ "" then m.userFullName else m.userEmail
                 update := (m.updates.filter (fun u => u.for_date == for_date.localDay)).head?
                 role := r.name } :: tail)

/-- `Team.get_updates(for_date)`: the roster of all active memberships. -/
def Team.get_updates (team : Team) (for_date : Datetime) :
    Except PyErr (List RosterEntry) :=
  rosterEntries for_date (team.memberships.filter (·.is_active))

/-! ## helpers.py -/

/-- `get_domain_name()` (src/updates/helpers.py).  The `Site` with pk 1 is
modelled as an optional domain string.  When it is present its domain is
returned; when it is absent the `except Site.DoesNotExist` handler evaluates
`logger.error(error_msg)`, but `helpers.py` never defines or imports `logger`,
so a `NameError` is raised out of the handler. -/
def get_domain_name (site : Option String) : Except PyErr (Option String) :=
  match site with
  | some domain => .ok (some domain)
  | none => .error .nameError

/-! ## tasks.py -/

/-- `schedule_reminders`/`schedule_digest` team queryset:
`Team.objects.filter(~Q(digest_days_sent__len=0), memberships__is_active__gt=0,
is_active=True).distinct()`. -/
def teamIsEligible (team : Team) : Bool :=
  team.is_active && !(team.digest_days_sent.length == 0)
    && team.memberships.any (·.is_active)

/-- One `send_reminders.apply_async((team.id,), eta=…)` enqueue. -/
structure ReminderScheduleJob where
  teamId : Nat
  eta : Datetime
deriving DecidableEq, Repr

/-- `schedule_reminders()` (tasks.py:21).  `now` is what `timezone.now()`
returns — a UTC-aware datetime, here its instant.  Returns the list of
enqueued `send_reminders` jobs in order. -/
def schedule_reminders (now : Minutes) (teams : List Team) :
    List ReminderScheduleJob :=
  (teams.filter teamIsEligible).filterMap (fun team =>
    let today := (Datetime.mk now utcTZ).astimezone manilaTZ
    if today.weekday ∈ team.digest_days_sent then
      some ⟨team.id, today.replaceHM team.send_reminders_at⟩
    else
      none)

/-- One `send_digest.apply_async((team.id, for_date, [True]), eta=…)` enqueue.
`for_date` is the second positional argument, `for_project_managers` the
(defaulted) third, `eta` the queue ETA. -/
structure DigestScheduleJob where
  teamId : Nat
  for_date : Datetime
  for_project_managers : Bool
  eta : Datetime
deriving DecidableEq, Repr

/-- `schedule_digest()` (tasks.py:149).  For every eligible team whose local
weekday is a send day, two enqueues: the regular digest at `digest_eta` and the
project-managers digest one hour earlier, both carrying
`digest_eta.astimezone(pytz.UTC)` as `for_date`. -/
def schedule_digest (now : Minutes) (teams : List Team) :
    List DigestScheduleJob :=
  (teams.filter teamIsEligible).flatMap (fun team =>
    let today := (Datetime.mk now utcTZ).astimezone manilaTZ
    if today.weekday ∈ team.digest_days_sent then
      let digest_eta := today.replaceHM team.send_digest_at
      [ ⟨team.id, digest_eta.astimezone utcTZ, false, digest_eta⟩,
        ⟨team.id, digest_eta.astimezone utcTZ, true, digest_eta.subMinutes 60⟩ ]
    else
      [])

/-- `Team.objects.get(id=team_id, is_active=True)`, `None` standing for
`Team.DoesNotExist`. -/
def lookupActiveTeam (teams : List Team) (team_id : Nat) : Option Team :=
  teams.find? (fun t => t.id == team_id && t.is_active)

/-- `Membership.objects.get(id=membership_id, is_active=True)`. -/
def lookupActiveMembership (memberships : List TeamMembership)
    (membership_id : Nat) : Option TeamMembership :=
  memberships.find? (fun m => m.id == membership_id && m.is_active)

/-- One `remind_team_member.delay(…)` enqueue made by `send_reminders`:
either personalized (with the will-do and blocker line lists) or bare. -/
inductive ReminderDispatch where
  | personalized (membershipId : Nat) (todos blockers : List String)
  | bare (membershipId : Nat)
deriving DecidableEq, Repr

/-- Result of one `send_reminders` run. -/
inductive SendRemindersResult where
  /-- `Team.DoesNotExist` branch: logged, return. -/
  | teamNotFound
  /-- no active membership: logged, return. -/
  | noActiveMembers
  /-- `mc.subaccounts.info` raised: logged, return. -/
  | invalidSubaccount
  /-- the per-membership `remind_team_member.delay` enqueues, in order. -/
  | dispatched (jobs : List ReminderDispatch)
deriving DecidableEq, Repr

/-- `send_reminders(team_id)` (tasks.py:101).  `now` is the instant
`timezone.now()` returns at execution time (a UTC-aware datetime, so its
`year/month/day` are the UTC calendar date). -/
def send_reminders (now : Minutes) (teams : List Team) (team_id : Nat) :
    SendRemindersResult :=
  match lookupActiveTeam teams team_id with
  | none => .teamNotFound
  | some team =>
    if (team.memberships.filter (·.is_active)).isEmpty then
      .noActiveMembers
    else if !team.subaccount_valid then
      .invalidSubaccount
    else
      let today : Datetime := ⟨now, utcTZ⟩
      .dispatched ((team.memberships.filter (·.is_active)).map (fun m =>
        match (m.updates.filter (fun u => u.for_date == today.localDay)).head? with
        | some u =>
            if u.will_do ≠ "" || u.blocker ≠ "" then
              .personalized m.id u.will_do_as_list u.blocker_as_list
            else
              .bare m.id
        | none => .bare m.id))

/-- Terminal status of one execution of an async send task. -/
inductive TaskOutcome where
  /-- permanent skip: the looked-up row is missing or inactive (logged,
  `return`). -/
  | skippedNotFound
  /-- permanent skip of `send_digest`: `team.get_updates` returned an empty
  roster (logged, no email). -/
  | skippedEmptyRoster
  /-- an unhandled Python exception escaped the task body. -/
  | crashed (e : PyErr)
  /-- the message was handed to the transport successfully; carries the
  recipient list of the sent message. -/
  | sent (recipients : List String)
  /-- transport failure and `self.retry(countdown, max_retries)` registered a
  retry. -/
  | retryScheduled (countdown : Nat) (max_retries : Nat)
  /-- transport failure with retries exhausted: terminal failure. -/
  | failed
deriving DecidableEq, Repr

/-- Modelled from the spec: the async queue collaborator's
`retry(job, args, countdown, max_retries)` (Celery, external to src/).  Spec
§4.4/§7: on transport failure the unit is retried "up to 5 times", i.e. a call
with `max_retries` registers one retry while fewer than `max_retries` retries
have run, "after exhausting retries, the failure is terminal".  `retries` is
the number of retries already executed for this unit. -/
def queueRetry (retries : Nat) (countdown : Nat) (max_retries : Nat) :
    TaskOutcome :=
  if retries < max_retries then .retryScheduled countdown max_retries
  else .failed

/-- `remind_team_member(membership_id, previous_todos, previous_blockers)`
(tasks.py:52).  `site` models the `Site` row `get_domain_name` reads,
`transportOk` whether `email_msg.send()` succeeds, `retries` how many retries
of this unit the queue has already run. -/
def remind_team_member (memberships : List TeamMembership)
    (site : Option String) (transportOk : Bool) (retries : Nat)
    (membership_id : Nat) : TaskOutcome :=
  match lookupActiveMembership memberships membership_id with
  | none => .skippedNotFound
  | some m =>
    match get_domain_name site with
    | .error e => .crashed e
    | .ok _ =>
        if transportOk then
          .sent [m.userFullName ++ " <" ++ m.userEmail ++ ">"]
        else
          queueRetry retries 300 5

/-- `send_digest(team_id, for_date, for_project_managers)` (tasks.py:184). -/
def send_digest (teams : List Team) (site : Option String)
    (transportOk : Bool) (retries : Nat) (team_id : Nat) (for_date : Datetime)
    (for_project_managers : Bool) : TaskOutcome :=
  match lookupActiveTeam teams team_id with
  | none => .skippedNotFound
  | some team =>
    match team.get_updates for_date with
    | .error e => .crashed e
    | .ok team_updates =>
      if team_updates.isEmpty then
        .skippedEmptyRoster
      else
        match get_domain_name site with
        | .error e => .crashed e
        | .ok _ =>
            if transportOk then
              .sent (team.get_recipients for_project_managers)
            else
              queueRetry retries 300 5

/-! ## Fixtures used by the witnesses -/

/-- Example fixture used to witness the claims at a concrete input. -/
def witnessMembership : TeamMembership :=
  { id := 1, is_active := true, role := some ⟨"Developer"⟩,
    userEmail := "dev@example.com", userFullName := "Dev One", updates := [] }

/-- Example fixture used to witness the claims at a concrete input. -/
def witnessTeam : Team :=
  { id := 1, is_active := true, digest_days_sent := [0, 1, 2, 3, 4],
    send_digest_at := ⟨9, 0⟩, send_reminders_at := ⟨18, 0⟩,
    createdByEmail := "owner@example.com", memberships := [witnessMembership],
    silent_recipients := [], subaccount_valid := true }

/-- A witness fixture with no configured send weekdays. -/
def emptyDaysTeam : Team := { witnessTeam with digest_days_sent := [] }

/-- C4 fixture: an update for Manila business day 4 (2015-01-05) with a
non-empty `will_do`. -/
def c4Update : Update := ⟨4, "", "Finish Ticket 102", ""⟩

/-- C4 fixture membership holding `c4Update`. -/
def c4Membership : TeamMembership :=
  { id := 1, is_active := true, role := some ⟨"Developer"⟩,
    userEmail := "dev@example.com", userFullName := "Dev One",
    updates := [c4Update] }

/-- C4 fixture team with an early-morning reminder time. -/
def c4Team : Team :=
  { id := 7, is_active := true, digest_days_sent := [0, 1, 2, 3, 4],
    send_digest_at := ⟨9, 0⟩, send_reminders_at := ⟨6, 0⟩,
    createdByEmail := "owner@example.com", memberships := [c4Membership],
    silent_recipients := [], subaccount_valid := true }

/-- The per-membership dispatch rule of the amended C4 (stated from the
amended claim's words): the member's update is looked up by exact
calendar-date match on the UTC calendar date of the execution instant; if one
is found and either `will_do` or `blocker` is non-empty, a personalized
reminder job carries the non-empty-line will-do and blocker lists; otherwise
a bare reminder job is enqueued. -/
def reminderDispatchSpec (utcDay : Int) (m : TeamMembership) : ReminderDispatch :=
  match (m.updates.filter (fun u => u.for_date == utcDay)).head? with
  | some u =>
      if u.will_do ≠ "" || u.blocker ≠ "" then
        .personalized m.id u.will_do_as_list u.blocker_as_list
      else
        .bare m.id
  | none => .bare m.id

/-- C9 fixture: an interior line that carries its own trailing whitespace. -/
def c9Update : Update := ⟨0, "", "A \nB", ""⟩

/-- C10 fixture: an active membership with a null role reference. -/
def nullRoleMembership : TeamMembership :=
  { id := 2, is_active := true, role := none,
    userEmail := "norole@example.com", userFullName := "No Role", updates := [] }

/-- C10 fixture team holding `nullRoleMembership`. -/
def nullRoleTeam : Team := { witnessTeam with id := 9, memberships := [nullRoleMembership] }

/-! ## Theorems about the claims -/

lemma schedule_reminders_singleton (now : Minutes) (team : Team)
    (h : teamIsEligible team = true) :
    schedule_reminders now [team]
      = if (Datetime.mk now manilaTZ).weekday ∈ team.digest_days_sent
        then [⟨team.id, (Datetime.mk now manilaTZ).replaceHM team.send_reminders_at⟩]
        else [] := by
  by_cases hd : (Datetime.mk now manilaTZ).weekday ∈ team.digest_days_sent
  · simp [schedule_reminders, h, Datetime.astimezone, hd]
  · simp [schedule_reminders, h, Datetime.astimezone, hd]

lemma schedule_digest_singleton (now : Minutes) (team : Team)
    (h : teamIsEligible team = true) :
    schedule_digest now [team]
      = if (Datetime.mk now manilaTZ).weekday ∈ team.digest_days_sent
        then
          [⟨team.id,
             ((Datetime.mk now manilaTZ).replaceHM team.send_digest_at).astimezone utcTZ,
             false, (Datetime.mk now manilaTZ).replaceHM team.send_digest_at⟩,
           ⟨team.id,
             ((Datetime.mk now manilaTZ).replaceHM team.send_digest_at).astimezone utcTZ,
             true, ((Datetime.mk now manilaTZ).replaceHM team.send_digest_at).subMinutes 60⟩]
        else [] := by
  by_cases hd : (Datetime.mk now manilaTZ).weekday ∈ team.digest_days_sent
  · simp [schedule_digest, h, Datetime.astimezone, hd]
  · simp [schedule_digest, h, Datetime.astimezone, hd]

lemma replaceHM_localDay (d : Datetime) (t : TimeOfDay) (ht : t.valid) :
    (d.replaceHM t).localDay = d.localDay := by
  obtain ⟨h1, h2, h3, h4⟩ := ht
  simp only [Datetime.replaceHM, Datetime.localDay, Datetime.localMinutes]
  have harith : d.localDay * 1440 + t.hour * 60 + t.minute - d.tzOffset + d.tzOffset
      = d.localDay * 1440 + (t.hour * 60 + t.minute) := by ring
  simp only [Datetime.localDay, Datetime.localMinutes] at harith
  rw [harith, Int.fdiv_eq_ediv _ (by norm_num), Int.fdiv_eq_ediv _ (by norm_num)]
  omega

lemma replaceHM_wallclock (d : Datetime) (t : TimeOfDay) (ht : t.valid) :
    (d.replaceHM t).localMinutes.emod 1440 = t.hour * 60 + t.minute := by
  obtain ⟨h1, h2, h3, h4⟩ := ht
  show (d.replaceHM t).localMinutes % 1440 = t.hour * 60 + t.minute
  simp only [Datetime.replaceHM, Datetime.localMinutes]
  have harith : d.localDay * 1440 + t.hour * 60 + t.minute - d.tzOffset + d.tzOffset
      = d.localDay * 1440 + (t.hour * 60 + t.minute) := by ring
  rw [harith]
  omega

/-- **C1**: for an eligible team with send days `[0,1,2,3,4]`, the weekday is
taken in Asia/Manila: at 2015-01-03 00:00 UTC (minute 2880; Saturday in Manila)
no reminder job is enqueued, and at 2015-01-05 00:00 UTC (minute 5760; Monday
in Manila) exactly one job is enqueued whose ETA is local day 4 (Manila
2015-01-05) at the team's `send_reminders_at` wall-clock time in the Manila
zone. -/
theorem schedule_reminders_manila_weekday (team : Team)
    (helig : teamIsEligible team = true)
    (hdays : team.digest_days_sent = [0, 1, 2, 3, 4]) :
    schedule_reminders 2880 [team] = []
      ∧ schedule_reminders 5760 [team]
          = [⟨team.id,
              ⟨4 * 1440 + (team.send_reminders_at.hour * 60
                 + team.send_reminders_at.minute) - manilaTZ, manilaTZ⟩⟩] := by
  constructor
  · rw [schedule_reminders_singleton _ _ helig, hdays]
    have hw : (Datetime.mk 2880 manilaTZ).weekday = 5 := by decide
    rw [hw]
    simp
  · rw [schedule_reminders_singleton _ _ helig, hdays]
    have hw : (Datetime.mk 5760 manilaTZ).weekday = 0 := by decide
    rw [hw, if_pos (by decide)]
    have hday : (Datetime.mk 5760 manilaTZ).localDay = 4 := by decide
    simp only [Datetime.replaceHM, hday]
    have harith : (4 : Int) * 1440 + team.send_reminders_at.hour * 60
          + team.send_reminders_at.minute - manilaTZ
        = 4 * 1440 + (team.send_reminders_at.hour * 60
          + team.send_reminders_at.minute) - manilaTZ := by ring
    rw [harith]

/-- Witness for C1 at the concrete fixture team. -/
theorem schedule_reminders_manila_weekday_witness :
    schedule_reminders 2880 [witnessTeam] = []
      ∧ schedule_reminders 5760 [witnessTeam]
          = [⟨1, ⟨6360, 480⟩⟩] := by
  have h := schedule_reminders_manila_weekday witnessTeam (by decide) (by decide)
  exact ⟨h.1, h.2.trans (by decide)⟩

/-- **C2**: a team is selected by the shared scheduling queryset iff it is
active, has a non-empty send-weekday list, and has at least one active
membership; a team with no send weekdays is never scheduled by either
scheduler, whatever the current instant. -/
theorem teamIsEligible_iff (team : Team) :
    (teamIsEligible team = true ↔
        team.is_active = true ∧ team.digest_days_sent ≠ []
          ∧ ∃ m ∈ team.memberships, m.is_active = true)
      ∧ (team.digest_days_sent = [] →
          ∀ now : Minutes, schedule_reminders now [team] = []
            ∧ schedule_digest now [team] = []) := by
  constructor
  · simp only [teamIsEligible, Bool.and_eq_true, List.any_eq_true, ne_eq,
      Bool.not_eq_true', decide_eq_true_eq]
    constructor
    · rintro ⟨⟨ha, hlen⟩, hm⟩
      exact ⟨ha, fun h => by simp [h] at hlen, hm⟩
    · rintro ⟨ha, hne, hm⟩
      refine ⟨⟨ha, ?_⟩, hm⟩
      simpa [List.length_eq_zero] using hne
  · intro hempty now
    have hne : teamIsEligible team = false := by
      simp [teamIsEligible, hempty]
    constructor
    · simp [schedule_reminders, List.filter, hne]
    · simp [schedule_digest, List.filter, hne]

/-- Witness for C2 at the concrete fixture teams. -/
theorem teamIsEligible_iff_witness :
    teamIsEligible witnessTeam = true
      ∧ schedule_reminders 5760 [emptyDaysTeam] = []
      ∧ schedule_digest 5760 [emptyDaysTeam] = [] := by
  refine ⟨(teamIsEligible_iff witnessTeam).1.mpr ⟨rfl, by decide, witnessMembership, by simp [witnessTeam], rfl⟩, ?_, ?_⟩
  · exact ((teamIsEligible_iff emptyDaysTeam).2 rfl 5760).1
  · exact ((teamIsEligible_iff emptyDaysTeam).2 rfl 5760).2

/-- **C3**: for an eligible team on a send day, `schedule_digest` enqueues
exactly two jobs: the regular digest at the ETA whose wall-clock time is the
configured `send_digest_at` on today's Manila calendar day, carrying the ETA
normalized to UTC as `for_date`, and a project-managers-only job exactly 60
minutes earlier carrying the same normalized instant. -/
theorem schedule_digest_two_jobs (team : Team) (now : Minutes)
    (helig : teamIsEligible team = true)
    (hday : (Datetime.mk now manilaTZ).weekday ∈ team.digest_days_sent)
    (hvalid : team.send_digest_at.valid) :
    schedule_digest now [team]
        = [⟨team.id,
            ((Datetime.mk now manilaTZ).replaceHM team.send_digest_at).astimezone utcTZ,
            false, (Datetime.mk now manilaTZ).replaceHM team.send_digest_at⟩,
           ⟨team.id,
            ((Datetime.mk now manilaTZ).replaceHM team.send_digest_at).astimezone utcTZ,
            true, ((Datetime.mk now manilaTZ).replaceHM team.send_digest_at).subMinutes 60⟩]
      ∧ ((Datetime.mk now manilaTZ).replaceHM team.send_digest_at).tzOffset = manilaTZ
      ∧ ((Datetime.mk now manilaTZ).replaceHM team.send_digest_at).localDay
          = (Datetime.mk now manilaTZ).localDay
      ∧ ((Datetime.mk now manilaTZ).replaceHM team.send_digest_at).localMinutes.emod 1440
          = team.send_digest_at.hour * 60 + team.send_digest_at.minute
      ∧ (((Datetime.mk now manilaTZ).replaceHM team.send_digest_at).subMinutes 60).instant
          = ((Datetime.mk now manilaTZ).replaceHM team.send_digest_at).instant - 60
      ∧ (((Datetime.mk now manilaTZ).replaceHM team.send_digest_at).subMinutes 60).tzOffset
          = manilaTZ := by
  refine ⟨?_, rfl, replaceHM_localDay _ _ hvalid, replaceHM_wallclock _ _ hvalid, rfl, rfl⟩
  rw [schedule_digest_singleton _ _ helig, if_pos hday]

/-- Witness for C3 at the concrete fixture team on 2015-01-05 00:00 UTC. -/
theorem schedule_digest_two_jobs_witness :
    schedule_digest 5760 [witnessTeam]
      = [⟨1, ⟨5820, 0⟩, false, ⟨5820, 480⟩⟩,
         ⟨1, ⟨5820, 0⟩, true, ⟨5760, 480⟩⟩] := by
  have h := schedule_digest_two_jobs witnessTeam 5760 (by decide) (by decide) (by decide)
  exact h.1.trans (by decide)

/-- **C7**: when the configured send time has already passed at scheduling
time (the computed ETA is strictly before `now`), both schedulers still submit
the computed past ETA unchanged — the team is not skipped and the ETA is not
rolled forward. -/
theorem schedule_past_eta_unchanged (team : Team) (now : Minutes)
    (helig : teamIsEligible team = true)
    (hday : (Datetime.mk now manilaTZ).weekday ∈ team.digest_days_sent)
    (hpastR : ((Datetime.mk now manilaTZ).replaceHM team.send_reminders_at).instant < now)
    (hpastD : ((Datetime.mk now manilaTZ).replaceHM team.send_digest_at).instant < now) :
    schedule_reminders now [team]
        = [⟨team.id, (Datetime.mk now manilaTZ).replaceHM team.send_reminders_at⟩]
      ∧ schedule_digest now [team]
        = [⟨team.id,
            ((Datetime.mk now manilaTZ).replaceHM team.send_digest_at).astimezone utcTZ,
            false, (Datetime.mk now manilaTZ).replaceHM team.send_digest_at⟩,
           ⟨team.id,
            ((Datetime.mk now manilaTZ).replaceHM team.send_digest_at).astimezone utcTZ,
            true, ((Datetime.mk now manilaTZ).replaceHM team.send_digest_at).subMinutes 60⟩] := by
  constructor
  · rw [schedule_reminders_singleton _ _ helig, if_pos hday]
  · rw [schedule_digest_singleton _ _ helig, if_pos hday]

/-- Witness for C7: at 2015-01-05 15:00 UTC (Manila 23:00) both configured
times (09:00 and 18:00 Manila) are already past, yet the past ETAs are
submitted. -/
theorem schedule_past_eta_unchanged_witness :
    schedule_reminders 6660 [witnessTeam] = [⟨1, ⟨6360, 480⟩⟩]
      ∧ schedule_digest 6660 [witnessTeam]
        = [⟨1, ⟨5820, 0⟩, false, ⟨5820, 480⟩⟩,
           ⟨1, ⟨5820, 0⟩, true, ⟨5760, 480⟩⟩] := by
  have h := schedule_past_eta_unchanged witnessTeam 6660 (by decide) (by decide)
    (by decide) (by decide)
  exact ⟨h.1.trans (by decide), h.2.trans (by decide)⟩

/-- **C5**: `get_recipients` with `for_project_managers=True` is exactly the
singleton owner email for every team; with `False` it is the duplicate-free
union of active members' emails, silent recipients' emails and the owner's
email. -/
theorem get_recipients_characterization (team : Team) :
    team.get_recipients true = [team.createdByEmail]
      ∧ (team.get_recipients false).Nodup
      ∧ ∀ e : String, e ∈ team.get_recipients false ↔
          ((∃ m ∈ team.memberships, m.is_active = true ∧ m.userEmail = e)
            ∨ (∃ s ∈ team.silent_recipients, s.userEmail = e)
            ∨ e = team.createdByEmail) := by
  have hunfold : team.get_recipients false
      = ((team.memberships.filter (·.is_active)).map (·.userEmail)
          ++ team.silent_recipients.map (·.userEmail)
          ++ [team.createdByEmail]).dedup := rfl
  refine ⟨rfl, ?_, ?_⟩
  · rw [hunfold]
    exact List.nodup_dedup _
  · intro e
    rw [hunfold, List.mem_dedup]
    simp only [List.mem_append, List.mem_map, List.mem_filter, List.mem_singleton]
    constructor
    · rintro ((⟨m, ⟨hm, hact⟩, he⟩ | ⟨s, hs, he⟩) | he)
      · exact Or.inl ⟨m, hm, hact, he⟩
      · exact Or.inr (Or.inl ⟨s, hs, he⟩)
      · exact Or.inr (Or.inr he)
    · rintro (⟨m, hm, hact, he⟩ | ⟨s, hs, he⟩ | he)
      · exact Or.inl (Or.inl ⟨m, ⟨hm, hact⟩, he⟩)
      · exact Or.inl (Or.inr ⟨s, hs, he⟩)
      · exact Or.inr he

/-- Counterexample to C4 as stated: at execution instant 5640
(2015-01-04 22:00 UTC, which is 06:00 of business day 2015-01-05 in Manila)
the member has an update for the business day (Manila day 4) with a non-empty
`will_do`, yet `send_reminders` looks updates up by the UTC calendar date
(day 3) and enqueues a bare reminder with no context instead of a
personalized one. -/
theorem send_reminders_business_day_counterexample :
    ((Datetime.mk 5640 utcTZ).astimezone manilaTZ).localDay = 4
      ∧ (Datetime.mk 5640 utcTZ).localDay = 3
      ∧ c4Membership.updates = [c4Update]
      ∧ c4Update.for_date = 4
      ∧ c4Update.will_do ≠ ""
      ∧ send_reminders 5640 [c4Team] 7 = .dispatched [.bare 1] := by
  decide

/-- **C4 (amended)**: for a validated team (found, active, with active
members and a valid subaccount), `send_reminders` enqueues one job per active
membership following `reminderDispatchSpec` on the UTC calendar date of the
execution instant. -/
theorem send_reminders_dispatch (now : Minutes) (teams : List Team)
    (team_id : Nat) (team : Team)
    (hfind : lookupActiveTeam teams team_id = some team)
    (hmem : (team.memberships.filter (·.is_active)).isEmpty = false)
    (hsub : team.subaccount_valid = true) :
    send_reminders now teams team_id
      = .dispatched ((team.memberships.filter (·.is_active)).map
          (reminderDispatchSpec (Datetime.mk now utcTZ).localDay)) := by
  simp only [send_reminders, hfind, hmem, hsub, Bool.not_true, Bool.false_eq_true,
    if_false, reminderDispatchSpec]
  rfl

/-- Witness for C4 (amended): at 2015-01-05 00:00 UTC the UTC date matches the
update's date, so the reminder is personalized with the will-do list. -/
theorem send_reminders_dispatch_witness :
    send_reminders 5760 [c4Team] 7
      = .dispatched [.personalized 1 ["Finish Ticket 102"] []] := by
  have h := send_reminders_dispatch 5760 [c4Team] 7 c4Team (by decide) (by decide)
    (by decide)
  exact h.trans (by decide)

/-- **C6**: a transport failure in `remind_team_member` or `send_digest`
registers exactly one retry with countdown 300 and max_retries 5 while fewer
than 5 retries have run, terminates as failed once 5 retries are exhausted,
and the permanent skips (missing/inactive membership or team, invalid
subaccount, empty roster) end in skip outcomes, never in a retry
registration. -/
theorem send_retry_policy (memberships : List TeamMembership)
    (teams : List Team) (team : Team) (m : TeamMembership)
    (roster : List RosterEntry) (domain : String) (retries : Nat)
    (now : Minutes) (membership_id team_id : Nat) (for_date : Datetime)
    (pm : Bool) :
    (lookupActiveMembership memberships membership_id = some m → retries < 5 →
      remind_team_member memberships (some domain) false retries membership_id
        = .retryScheduled 300 5)
    ∧ (lookupActiveMembership memberships membership_id = some m →
        5 ≤ retries →
      remind_team_member memberships (some domain) false retries membership_id
        = .failed)
    ∧ (lookupActiveTeam teams team_id = some team →
        team.get_updates for_date = .ok roster → roster.isEmpty = false →
        retries < 5 →
      send_digest teams (some domain) false retries team_id for_date pm
        = .retryScheduled 300 5)
    ∧ (lookupActiveTeam teams team_id = some team →
        team.get_updates for_date = .ok roster → roster.isEmpty = false →
        5 ≤ retries →
      send_digest teams (some domain) false retries team_id for_date pm
        = .failed)
    ∧ (lookupActiveMembership memberships membership_id = none →
      remind_team_member memberships (some domain) false retries membership_id
        = .skippedNotFound)
    ∧ (lookupActiveTeam teams team_id = none →
      send_digest teams (some domain) false retries team_id for_date pm
        = .skippedNotFound)
    ∧ (lookupActiveTeam teams team_id = some team →
        team.get_updates for_date = .ok [] →
      send_digest teams (some domain) false retries team_id for_date pm
        = .skippedEmptyRoster)
    ∧ (lookupActiveTeam teams team_id = some team →
        (team.memberships.filter (·.is_active)).isEmpty = false →
        team.subaccount_valid = false →
      send_reminders now teams team_id = .invalidSubaccount)
    ∧ (∀ c mr : Nat, (TaskOutcome.skippedNotFound ≠ .retryScheduled c mr)
        ∧ (TaskOutcome.skippedEmptyRoster ≠ .retryScheduled c mr)) := by
  refine ⟨?_, ?_, ?_, ?_, ?_, ?_, ?_, ?_, ?_⟩
  · intro hfind hlt
    simp [remind_team_member, hfind, get_domain_name, queueRetry, hlt]
  · intro hfind hge
    simp [remind_team_member, hfind, get_domain_name, queueRetry, Nat.not_lt.mpr hge]
  · intro hfind hroster hne hlt
    simp [send_digest, hfind, hroster, hne, get_domain_name, queueRetry, hlt]
  · intro hfind hroster hne hge
    simp [send_digest, hfind, hroster, hne, get_domain_name, queueRetry,
      Nat.not_lt.mpr hge]
  · intro hfind
    simp [remind_team_member, hfind]
  · intro hfind
    simp [send_digest, hfind]
  · intro hfind hempty
    simp [send_digest, hfind, hempty]
  · intro hfind hmem hsub
    simp [send_reminders, hfind, hmem, hsub]
  · intro c mr
    exact ⟨by simp, by simp⟩

/-- Witness for C6 at concrete fixtures. -/
theorem send_retry_policy_witness :
    remind_team_member [witnessMembership] (some "example.com") false 0 1
        = .retryScheduled 300 5
      ∧ remind_team_member [witnessMembership] (some "example.com") false 5 1
        = .failed
      ∧ send_digest [witnessTeam] (some "example.com") false 0 1 ⟨5760, 0⟩ false
        = .retryScheduled 300 5
      ∧ send_digest [witnessTeam] (some "example.com") false 5 1 ⟨5760, 0⟩ false
        = .failed
      ∧ remind_team_member [] (some "example.com") false 0 1
        = .skippedNotFound
      ∧ send_digest [] (some "example.com") false 0 1 ⟨5760, 0⟩ false
        = .skippedNotFound := by
  have h1 := send_retry_policy [witnessMembership] [witnessTeam] witnessTeam
    witnessMembership [⟨"Dev One", none, "Developer"⟩] "example.com" 0 5760 1 1
    ⟨5760, 0⟩ false
  have h2 := send_retry_policy [witnessMembership] [witnessTeam] witnessTeam
    witnessMembership [⟨"Dev One", none, "Developer"⟩] "example.com" 5 5760 1 1
    ⟨5760, 0⟩ false
  have h3 := send_retry_policy [] [] witnessTeam witnessMembership [] "example.com"
    0 5760 1 1 ⟨5760, 0⟩ false
  refine ⟨h1.1 (by decide) (by decide), h2.2.1 (by decide) (by decide),
    h1.2.2.1 (by decide) rfl (by decide) (by decide),
    h2.2.2.2.1 (by decide) rfl (by decide) (by decide),
    (h3.2.2.2.2.1) (by decide), (h3.2.2.2.2.2.1) (by decide)⟩

/-- **C8** (the claim documents the intent; the code slips): when the `Site`
row is missing, `get_domain_name`'s `except Site.DoesNotExist` handler
evaluates the undefined name `logger`, so a `NameError` escapes and
`remind_team_member` aborts before building the message — nothing is logged
by that handler and no send is attempted, contradicting the documented
"log and send with empty domain" behaviour. -/
theorem remind_team_member_missing_site (memberships : List TeamMembership)
    (m : TeamMembership) (transportOk : Bool) (retries : Nat)
    (membership_id : Nat)
    (hfind : lookupActiveMembership memberships membership_id = some m) :
    get_domain_name none = .error .nameError
      ∧ remind_team_member memberships none transportOk retries membership_id
          = .crashed .nameError := by
  refine ⟨rfl, ?_⟩
  simp [remind_team_member, hfind, get_domain_name]

/-- Witness for C8 at the concrete fixture membership. -/
theorem remind_team_member_missing_site_witness :
    remind_team_member [witnessMembership] none true 0 1 = .crashed .nameError :=
  (remind_team_member_missing_site [witnessMembership] witnessMembership true 0 1
    (by decide)).2

/-- Counterexample to C9 as stated: kept lines are not individually trimmed —
only the whole field is stripped — so the field "A \nB" converts to
["A ", "B"], not ["A", "B"]. -/
theorem will_do_as_list_counterexample :
    c9Update.will_do_as_list = ["A ", "B"]
      ∧ c9Update.will_do_as_list ≠ ["A", "B"] := by
  decide

/-- **C9 (amended)**: for every free-text field, the conversion drops empty
and whitespace-only lines and trims surrounding whitespace from the field as
a whole (not from each kept line); in particular "A\n\nB \n" still converts
to ["A", "B"] (its trailing whitespace belongs to the field's end), while an
interior line keeps its own surrounding whitespace ("A \nB" ↦ ["A ", "B"]). -/
theorem as_list_drops_blank_lines :
    (∀ u : Update,
      (∀ l ∈ u.will_do_as_list, pyStrip l ≠ "")
        ∧ (∀ l ∈ u.done_as_list, pyStrip l ≠ "")
        ∧ (∀ l ∈ u.blocker_as_list, pyStrip l ≠ ""))
      ∧ (Update.mk 0 "" "A\n\nB \n" "").will_do_as_list = ["A", "B"]
      ∧ (Update.mk 0 "A\n\nB \n" "" "").done_as_list = ["A", "B"]
      ∧ (Update.mk 0 "" "" "A\n\nB \n").blocker_as_list = ["A", "B"]
      ∧ (Update.mk 0 "" "A \nB" "").will_do_as_list = ["A ", "B"] := by
  refine ⟨fun u => ⟨?_, ?_, ?_⟩, by decide, by decide, by decide, by decide⟩
  all_goals
    intro l hl
    exact of_decide_eq_true (List.mem_filter.mp hl).2

/-- Witness for C9 (amended), instantiating the kept-line property at a
concrete update and line. -/
theorem as_list_drops_blank_lines_witness : pyStrip "A" ≠ "" :=
  (as_list_drops_blank_lines.1 ⟨0, "", "A", ""⟩).1 "A" (by decide)

/-- Helper for C10: the roster loop raises `AttributeError` as soon as the
iterated list contains a membership with a null role. -/
lemma rosterEntries_error_of_null_role (for_date : Datetime)
    (l : List TeamMembership) (m : TeamMembership) (hm : m ∈ l)
    (hrole : m.role = none) :
    rosterEntries for_date l = .error .attributeError := by
  induction l with
  | nil => cases hm
  | cons a rest ih =>
    rcases List.mem_cons.mp hm with h | h
    · subst h
      simp [rosterEntries, hrole]
    · cases ha : a.role with
      | none => simp [rosterEntries, ha]
      | some r =>
        simp only [rosterEntries, ha]
        rw [ih h]

/-- **C10**: any team with an active membership whose role reference is null
cannot build its digest roster: `get_updates` raises `AttributeError`
(producing no entry) and `send_digest` for that team crashes instead of
sending. -/
theorem get_updates_null_role (team : Team) (for_date : Datetime)
    (h : ∃ m ∈ team.memberships, m.is_active = true ∧ m.role = none) :
    team.get_updates for_date = .error .attributeError
      ∧ ∀ (teams : List Team) (site : Option String) (transportOk : Bool)
          (retries : Nat) (team_id : Nat) (pm : Bool),
          lookupActiveTeam teams team_id = some team →
          send_digest teams site transportOk retries team_id for_date pm
            = .crashed .attributeError := by
  obtain ⟨m, hm, hact, hrole⟩ := h
  have herr : team.get_updates for_date = .error .attributeError := by
    unfold Team.get_updates
    exact rosterEntries_error_of_null_role for_date _ m
      (List.mem_filter.mpr ⟨hm, by simp [hact]⟩) hrole
  refine ⟨herr, ?_⟩
  intro teams site transportOk retries team_id pm hfind
  simp [send_digest, hfind, herr]

/-- Witness for C10 at the concrete fixture team. -/
theorem get_updates_null_role_witness :
    nullRoleTeam.get_updates ⟨5760, 0⟩ = .error .attributeError
      ∧ send_digest [nullRoleTeam] (some "example.com") true 0 9 ⟨5760, 0⟩ false
        = .crashed .attributeError := by
  have h := get_updates_null_role nullRoleTeam ⟨5760, 0⟩
    ⟨nullRoleMembership, by simp [nullRoleTeam, witnessTeam], rfl, rfl⟩
  exact ⟨h.1, h.2 [nullRoleTeam] (some "example.com") true 0 9 false (by decide)⟩
